import Mathlib

/-!
Shallow embedding of the comfforts/cache library (cache.go) in Lean 4.

The in-memory TTL store is the vendored go-cache map; a Go map is modelled
here as an association list with unique keys (Go map iteration order is
unspecified; the list order determinizes it).  Machine time is one abstract
`Nat` clock passed explicitly to every operation (the source uses Unix
nanoseconds for entry expirations and Unix seconds for the dirty-tracker
timestamps; the two families are never compared against each other, so one
abstract clock serves both, with durations expressed in the same units).
File-system and network effects (save, upload, download, remote delete,
remote close) are modelled by explicit success flags and an explicit
snapshot-file value threaded through the operations that touch them.
Structured logging is pure observation in the source and is dropped.
-/

namespace ComffortsCache

/-- Error outcomes distinguished by the source, as an enumeration (the source
wraps lower-level errors into strings; only their identity matters here). -/
inductive CacheErr where
  | keyExists
  | missingRequired
  | missingMarshalFn
  | clientCreateFailed
  | missingBucket
  | noCacheFile
  | downloadFailed
  | decodeFailed
  | saveFailed
  | uploadFailed
  | closeFailed
  | statFailed
  | removeFailed
  | cloudDeleteFailed
  deriving DecidableEq, Repr

/-- `DEFAULT_CACHE_FILE_NAME = "cache"` from cache.go. -/
def DEFAULT_CACHE_FILE_NAME : String := "cache"

/-- `DEFAULT_EXPIRATION = 5 * time.Minute`, in abstract seconds. -/
def DEFAULT_EXPIRATION : Int := 300

/-- `DEFAULT_CLEANUP_INTERVAL = 10 * time.Minute`, in abstract seconds. -/
def DEFAULT_CLEANUP_INTERVAL : Int := 600

/-- The literal `5 * time.Minute` TTL used in the round-trip scenario. -/
def FIVE_MINUTES : Int := 300

/-- The literal `5 * time.Hour` re-hydration TTL used inside `load`. -/
def FIVE_HOURS : Int := 18000

/-- go-cache `Item`: payload plus absolute expiration; expiration `0` means
"no expiration" (go-cache convention for non-positive TTLs). -/
structure Item (V : Type) where
  object : V
  expiration : Nat
  deriving DecidableEq, Repr

/-- go-cache `Item.Expired`: `false` when `Expiration == 0`, otherwise
`now > Expiration`.  The inline checks `Expiration > 0 && now > Expiration`
appearing in go-cache `get`, `Items` and `DeleteExpired` are the same
predicate. -/
def Item.Expired {V : Type} (it : Item V) (now : Nat) : Bool :=
  if it.expiration = 0 then false else decide (it.expiration < now)

/-- Lookup in the association-list model of the Go map. -/
def findItem {V : Type} : List (String × Item V) → String → Option (Item V)
  | [], _ => none
  | p :: rest, k => if p.1 = k then some p.2 else findItem rest k

/-- go-cache internal `get`: a hit only for a present, unexpired entry. -/
def gcGet {V : Type} (items : List (String × Item V)) (k : String) (now : Nat) :
    Option (Item V) :=
  match findItem items k with
  | none => none
  | some it => if it.Expired now then none else some it

/-- The expiration computed by go-cache `set`: a TTL equal to
`DefaultExpiration` (the constant `0`) is replaced by the cache's default; a
positive TTL yields expiration `now + d`; otherwise `0` (never expires). -/
def gcExpiration (d : Int) (defaultExp : Int) (now : Nat) : Nat :=
  let d1 := if d = 0 then defaultExp else d
  if 0 < d1 then now + d1.toNat else 0

/-- go-cache internal `set`: the binding for `k` is replaced wholesale. -/
def gcSet {V : Type} (items : List (String × Item V)) (k : String) (v : V)
    (d : Int) (defaultExp : Int) (now : Nat) : List (String × Item V) :=
  (k, ⟨v, gcExpiration d defaultExp now⟩) :: items.filter (fun p => p.1 ≠ k)

/-- go-cache `Add`: insert-if-absent; fails (and leaves the map untouched)
exactly when an unexpired entry for `k` is present; an expired leftover entry
is overwritten. -/
def gcAdd {V : Type} (items : List (String × Item V)) (k : String) (v : V)
    (d : Int) (defaultExp : Int) (now : Nat) :
    Except CacheErr (List (String × Item V)) :=
  match gcGet items k now with
  | some _ => .error .keyExists
  | none => .ok (gcSet items k v d defaultExp now)

/-- go-cache `Delete`: removes the binding for `k` (no-op when absent). -/
def gcDelete {V : Type} (items : List (String × Item V)) (k : String) :
    List (String × Item V) :=
  items.filter (fun p => p.1 ≠ k)

/-- go-cache `DeleteExpired`: removes every entry with
`Expiration > 0 && now > Expiration`. -/
def gcDeleteExpired {V : Type} (items : List (String × Item V)) (now : Nat) :
    List (String × Item V) :=
  items.filter (fun p => ! p.2.Expired now)

/-- go-cache `Items`: a copy of all unexpired items (expired ones skipped). -/
def gcItems {V : Type} (items : List (String × Item V)) (now : Nat) :
    List (String × Item V) :=
  items.filter (fun p => ! p.2.Expired now)

/-- go-cache `GetWithExpiration`, already composed with the facade `Get`
which discards the `ok` flag: `(value?, expirationOrZero)`; a miss or an
expired entry yields `(none, 0)` (the zero `time.Time`), an unexpired entry
with no expiration yields `(value, 0)`. -/
def gcGetWithExpiration {V : Type} (items : List (String × Item V)) (k : String)
    (now : Nat) : Option V × Nat :=
  match findItem items k with
  | none => (none, 0)
  | some it =>
    if 0 < it.expiration then
      if it.expiration < now then (none, 0)
      else (some it.object, it.expiration)
    else (some it.object, 0)

/-- The `cacheService` struct: config fields flattened in, the two
dirty-tracker timestamps, the go-cache map, and whether a cloud storage
client is configured (`StoreConfig.CloudClient != nil`).  The caller-supplied
marshal function returns `none` on conversion failure. -/
structure CacheService (V : Type) where
  dataDir : String
  cacheFileName : String
  marshalFn : V → Option V
  defaultExpiration : Int
  cleanupInterval : Int
  loadedAt : Nat
  updatedAt : Nat
  items : List (String × Item V)
  hasCloudClient : Bool

/-- Facade `Set`: delegates to go-cache `Add`; on success sets
`updatedAt = now`; on failure returns the wrapped error with no state
change.  The pair is (returned error, receiver state afterwards). -/
def CacheService.Set {V : Type} (c : CacheService V) (k : String) (v : V)
    (d : Int) (now : Nat) : Option CacheErr × CacheService V :=
  match gcAdd c.items k v d c.defaultExpiration now with
  | .error e => (some e, c)
  | .ok its => (none, { c with items := its, updatedAt := now })

/-- Facade `Get`: read-only; delegates to `GetWithExpiration` and drops the
`ok` flag. -/
def CacheService.Get {V : Type} (c : CacheService V) (k : String) (now : Nat) :
    Option V × Nat :=
  gcGetWithExpiration c.items k now

/-- Facade `Delete` (via the private `delete`): removes the key and sets
`updatedAt = now` unconditionally. -/
def CacheService.Delete {V : Type} (c : CacheService V) (k : String) (now : Nat) :
    CacheService V :=
  { c with items := gcDelete c.items k, updatedAt := now }

/-- Facade `DeleteExpired` (via the private `deleteExpired`): sweeps expired
entries; the dirty-tracker timestamps are not touched. -/
def CacheService.DeleteExpired {V : Type} (c : CacheService V) (now : Nat) :
    CacheService V :=
  { c with items := gcDeleteExpired c.items now }

/-- Facade `ItemCount`: go-cache `ItemCount` is `len(c.items)`, expired
entries included. -/
def CacheService.ItemCount {V : Type} (c : CacheService V) : Nat :=
  c.items.length

/-- Facade `Items`: unexpired entries only. -/
def CacheService.Items {V : Type} (c : CacheService V) (now : Nat) :
    List (String × Item V) :=
  gcItems c.items now

/-- `Updated`: the dirty predicate `updatedAt > loadedAt`. -/
def CacheService.Updated {V : Type} (c : CacheService V) : Bool :=
  decide (c.loadedAt < c.updatedAt)

/-- `setLoadedAt`: sets both timestamps to the same instant. -/
def CacheService.setLoadedAt {V : Type} (c : CacheService V) (t : Nat) :
    CacheService V :=
  { c with loadedAt := t, updatedAt := t }

/-- Decoded content of the snapshot file: either a well-formed JSON map of
entries, or bytes on which the JSON decode fails. -/
inductive FileData (V : Type) where
  | snapshot (entries : List (String × Item V))
  | corrupt
  deriving DecidableEq, Repr

/-- One iteration of the loop in `load`: an expired entry is dropped; a
conversion failure is logged and the entry skipped; otherwise the entry is
re-inserted via the facade `Set` with the fixed `5 * time.Hour` TTL (a `Set`
failure is also only logged). -/
def loadEntry {V : Type} (c : CacheService V) (now : Nat) (p : String × Item V) :
    CacheService V :=
  if p.2.Expired now then c
  else
    match c.marshalFn p.2.object with
    | none => c
    | some obj => (c.Set p.1 obj FIVE_HOURS now).2

/-- The re-insertion loop of `load` over all decoded entries. -/
def loadItems {V : Type} (c : CacheService V) (entries : List (String × Item V))
    (now : Nat) : CacheService V :=
  entries.foldl (fun acc p => loadEntry acc now p) c

/-- `load`: decodes the snapshot; on decode failure no entry is touched and
the decode error is returned; on success the loop runs and `nil` is
returned. Either way `setLoadedAt(now)` runs before returning. -/
def load {V : Type} (c : CacheService V) (data : FileData V) (now : Nat) :
    Option CacheErr × CacheService V :=
  match data with
  | .corrupt => (some .decodeFailed, (c.setLoadedAt now))
  | .snapshot entries => (none, ((loadItems c entries now).setLoadedAt now))

/-- `loadFile`: stats the snapshot file; when absent, with a cloud client it
attempts the download (the downloaded bytes, or `none` when the download
fails, are the `downloaded` argument), without one it returns the stat
error; then opens and `load`s the file.  Wrapping of the returned errors is
dropped (only their identity matters). -/
def loadFile {V : Type} (c : CacheService V) (file : Option (FileData V))
    (downloaded : Option (FileData V)) (now : Nat) :
    Option CacheErr × CacheService V :=
  match file with
  | some data => load c data now
  | none =>
    if c.hasCloudClient then
      match downloaded with
      | none => (some .downloadFailed, c)
      | some data => load c data now
    else (some .noCacheFile, c)

/-- `CacheConfig` as handed to the constructors; `MarshalFn = none` models
the nil function pointer. -/
structure CacheConfig (V : Type) where
  DataDir : String
  CacheFileName : String
  MarshalFn : Option (V → Option V)
  DefaultExpiration : Int
  DefaultCleanupInterval : Int

/-- `CacheStorageConfig`: `hasCloudClient` models `CloudClient != nil`;
`clientCreateOk` models whether `cloudstorage.NewCloudStorageClient`
succeeds when a client has to be built. -/
structure CacheStorageConfig where
  CredsPath : String
  Bucket : String
  hasCloudClient : Bool
  clientCreateOk : Bool

/-- The private constructor `newCacheService`: validates the config, applies
the defaults, and builds a service with an empty map and zero timestamps
(`hasLogger` models `l != nil`). -/
def newCacheService {V : Type} (cfg : CacheConfig V) (hasLogger : Bool) :
    Except CacheErr (CacheService V) :=
  if cfg.DataDir = "" ∨ ¬hasLogger then .error .missingRequired
  else
    match cfg.MarshalFn with
    | none => .error .missingMarshalFn
    | some f =>
      let defaultExp :=
        if cfg.DefaultExpiration ≤ 0 then DEFAULT_EXPIRATION
        else cfg.DefaultExpiration
      let cleanup :=
        if cfg.DefaultCleanupInterval ≤ 0 then DEFAULT_CLEANUP_INTERVAL
        else cfg.DefaultCleanupInterval
      let name :=
        if cfg.CacheFileName = "" then DEFAULT_CACHE_FILE_NAME
        else cfg.CacheFileName
      .ok { dataDir := cfg.DataDir, cacheFileName := name, marshalFn := f,
            defaultExpiration := defaultExp, cleanupInterval := cleanup,
            loadedAt := 0, updatedAt := 0, items := [],
            hasCloudClient := false }

/-- `NewCacheService`: build, then `loadFile`; a load failure is only logged
("starting with fresh cache") and never surfaced. -/
def NewCacheService {V : Type} (cfg : CacheConfig V) (hasLogger : Bool)
    (file : Option (FileData V)) (now : Nat) :
    Except CacheErr (CacheService V) :=
  match newCacheService cfg hasLogger with
  | .error e => .error e
  | .ok c => .ok (loadFile c file none now).2

/-- `NewWithCloudBackup`: the source's validation order (dataDir/logger,
marshal function, client construction when none supplied, bucket), then the
private constructor, attach the store config, `loadFile` with the download
fallback, load failure only logged. -/
def NewWithCloudBackup {V : Type} (cfg : CacheConfig V)
    (cloudCfg : CacheStorageConfig) (hasLogger : Bool)
    (file : Option (FileData V)) (downloaded : Option (FileData V))
    (now : Nat) : Except CacheErr (CacheService V) :=
  if cfg.DataDir = "" ∨ ¬hasLogger then .error .missingRequired
  else if cfg.MarshalFn.isNone then .error .missingMarshalFn
  else if ¬cloudCfg.hasCloudClient ∧
      (cloudCfg.Bucket = "" ∨ cloudCfg.CredsPath = "") then
    .error .missingRequired
  else if ¬cloudCfg.hasCloudClient ∧ ¬cloudCfg.clientCreateOk then
    .error .clientCreateFailed
  else if cloudCfg.Bucket = "" then .error .missingBucket
  else
    match newCacheService cfg hasLogger with
    | .error e => .error e
    | .ok c =>
      .ok (loadFile { c with hasCloudClient := true } file downloaded now).2

/-- A service together with its snapshot file and the remote copy: the state
touched by `saveFile`, `clear` and `ClearFile`.  `file = none` means the
snapshot file does not exist. -/
structure Sys (V : Type) where
  svc : CacheService V
  file : Option (FileData V)
  remoteFile : Bool

/-- `saveFile`: on success (directory creation, file creation and JSON
encoding all succeed, collapsed into `saveOk`) the snapshot file is replaced
by the encoding of `c.cache.Items()` — the unexpired entries; on failure the
error is returned. -/
def saveFile {V : Type} (s : Sys V) (saveOk : Bool) (now : Nat) :
    Option CacheErr × Sys V :=
  if saveOk then (none, { s with file := some (.snapshot (gcItems s.svc.items now)) })
  else (some .saveFailed, s)

/-- The unconditional tail of `clear`: `cache.Flush()` (the map becomes
empty), then, when a cloud client is configured, `Close()` whose failure is
returned. -/
def clearFlush {V : Type} (s : Sys V) (closeOk : Bool) :
    Option CacheErr × Sys V :=
  let s1 : Sys V := { s with svc := { s.svc with items := [] } }
  if s1.svc.hasCloudClient ∧ ¬closeOk then (some .closeFailed, s1)
  else (none, s1)

/-- The private `clear` behind the facade `Clear`: when dirty, save (an
error returns at once), then, with a cloud client, upload (an error returns
at once); only then flush the map and close any cloud client. -/
def clear {V : Type} (s : Sys V) (saveOk uploadOk closeOk : Bool) (now : Nat) :
    Option CacheErr × Sys V :=
  if s.svc.Updated then
    match saveFile s saveOk now with
    | (some e, s1) => (some e, s1)
    | (none, s1) =>
      if s1.svc.hasCloudClient then
        if uploadOk then clearFlush { s1 with remoteFile := true } closeOk
        else (some .uploadFailed, s1)
      else clearFlush s1 closeOk
  else clearFlush s closeOk

/-- `ClearFile`: stat the snapshot file (fail without deleting anything when
absent); with a cloud client, attempt the remote delete first, remembering
its error; remove the local file regardless (a removal failure is returned
and wins); once the local removal succeeds, return the remembered remote
error. -/
def ClearFile {V : Type} (s : Sys V) (cloudDeleteOk removeOk : Bool) :
    Option CacheErr × Sys V :=
  match s.file with
  | none => (some .statFailed, s)
  | some _ =>
    let cloudErr : Option CacheErr :=
      if s.svc.hasCloudClient ∧ ¬cloudDeleteOk then some .cloudDeleteFailed
      else none
    let s1 : Sys V :=
      if s.svc.hasCloudClient ∧ cloudDeleteOk then { s with remoteFile := false }
      else s
    if removeOk then (cloudErr, { s1 with file := none })
    else (some .removeFailed, s1)

/-- The explicit service record built by `newCacheService` for a valid
config with a logger and marshal function `f`: defaults applied, zero
timestamps, empty map, no cloud client. -/
def initialService {V : Type} (cfg : CacheConfig V) (f : V → Option V) :
    CacheService V :=
  { dataDir := cfg.DataDir,
    cacheFileName :=
      if cfg.CacheFileName = "" then DEFAULT_CACHE_FILE_NAME
      else cfg.CacheFileName,
    marshalFn := f,
    defaultExpiration :=
      if cfg.DefaultExpiration ≤ 0 then DEFAULT_EXPIRATION
      else cfg.DefaultExpiration,
    cleanupInterval :=
      if cfg.DefaultCleanupInterval ≤ 0 then DEFAULT_CLEANUP_INTERVAL
      else cfg.DefaultCleanupInterval,
    loadedAt := 0, updatedAt := 0, items := [], hasCloudClient := false }

/-! ### Concrete fixtures

Small concrete instances (payload type `Nat`, identity conversion function)
used by the closed counterexample and witness theorems below. -/

/-- A concrete key. -/
def kA : String := "a"

/-- Another concrete key. -/
def kB : String := "b"

/-- A third concrete key. -/
def kC : String := "c"

/-- A concrete data directory name. -/
def dirOne : String := "data"

/-- A dirty service instance: `updatedAt = 5 > loadedAt = 0`, one live
entry. -/
def svcDirty : CacheService Nat :=
  { dataDir := dirOne, cacheFileName := DEFAULT_CACHE_FILE_NAME,
    marshalFn := some, defaultExpiration := DEFAULT_EXPIRATION,
    cleanupInterval := DEFAULT_CLEANUP_INTERVAL, loadedAt := 0, updatedAt := 5,
    items := [(kA, ⟨7, 0⟩)], hasCloudClient := false }

/-- The dirty service with its (absent) snapshot file. -/
def sysDirty : Sys Nat :=
  { svc := svcDirty, file := none, remoteFile := false }

/-- A clean service instance holding one entry for `kA` that is live at
`now = 10` (expiration 50). -/
def svcLive : CacheService Nat :=
  { dataDir := dirOne, cacheFileName := DEFAULT_CACHE_FILE_NAME,
    marshalFn := some, defaultExpiration := DEFAULT_EXPIRATION,
    cleanupInterval := DEFAULT_CLEANUP_INTERVAL, loadedAt := 3, updatedAt := 3,
    items := [(kA, ⟨7, 50⟩)], hasCloudClient := false }

/-- An empty service used as the receiver of `load` in witnesses. -/
def svcEmpty : CacheService Nat :=
  { dataDir := dirOne, cacheFileName := DEFAULT_CACHE_FILE_NAME,
    marshalFn := some, defaultExpiration := DEFAULT_EXPIRATION,
    cleanupInterval := DEFAULT_CLEANUP_INTERVAL, loadedAt := 0, updatedAt := 0,
    items := [], hasCloudClient := false }

/-- An empty service with a cloud client configured. -/
def svcEmptyCloud : CacheService Nat :=
  { svcEmpty with hasCloudClient := true }

/-- A snapshot with one entry expired at `now = 100` (expiration 40) and one
live entry (expiration 0, never expires). -/
def entriesMixed : List (String × Item Nat) :=
  [(kA, ⟨7, 40⟩), (kB, ⟨8, 0⟩)]

/-- A dirty cloud-backed system whose snapshot file exists. -/
def sysCloudFile : Sys Nat :=
  { svc := { svcDirty with hasCloudClient := true },
    file := some (.snapshot [(kA, ⟨7, 0⟩)]), remoteFile := true }

/-- A conversion function that fails on odd payloads. -/
def failOdd : Nat → Option Nat :=
  fun n => if n % 2 = 1 then none else some n

/-- An empty service whose conversion function is `failOdd`. -/
def svcConv : CacheService Nat :=
  { svcEmpty with marshalFn := failOdd }

/-- A snapshot both of whose entries are live, with the first one's payload
failing conversion under `failOdd`. -/
def entriesConv : List (String × Item Nat) :=
  [(kA, ⟨7, 0⟩), (kB, ⟨8, 0⟩)]

/-- A valid concrete `CacheConfig`. -/
def cfgOne : CacheConfig Nat :=
  { DataDir := dirOne, CacheFileName := DEFAULT_CACHE_FILE_NAME,
    MarshalFn := some some, DefaultExpiration := DEFAULT_EXPIRATION,
    DefaultCleanupInterval := DEFAULT_CLEANUP_INTERVAL }

/-- A concrete bucket name. -/
def bucketOne : String := "bkt"

/-- A valid concrete `CacheStorageConfig` with a pre-built client. -/
def stCfgOne : CacheStorageConfig :=
  { CredsPath := dirOne, Bucket := bucketOne, hasCloudClient := true,
    clientCreateOk := true }

/-! ### Helper lemmas -/

theorem findItem_filter_ne {V : Type} (items : List (String × Item V))
    (k k' : String) (h : k' ≠ k) :
    findItem (items.filter (fun p => p.1 ≠ k)) k' = findItem items k' := by
  have hkk : ¬(k = k') := fun hc => h hc.symm
  induction items with
  | nil => rfl
  | cons p rest ih =>
    simp only [ne_eq, decide_not] at ih ⊢
    by_cases hp : p.1 = k
    · simp [List.filter_cons, hp, findItem, hkk, ih]
    · by_cases hk' : p.1 = k'
      · simp [List.filter_cons, hp, findItem, hk', h]
      · simp [List.filter_cons, hp, findItem, hk', ih]

theorem findItem_gcSet_self {V : Type} (items : List (String × Item V))
    (k : String) (v : V) (d defaultExp : Int) (now : Nat) :
    findItem (gcSet items k v d defaultExp now) k =
      some ⟨v, gcExpiration d defaultExp now⟩ := by
  simp [gcSet, findItem]

theorem findItem_gcSet_ne {V : Type} (items : List (String × Item V))
    (k k' : String) (v : V) (d defaultExp : Int) (now : Nat) (h : k' ≠ k) :
    findItem (gcSet items k v d defaultExp now) k' = findItem items k' := by
  have hne : ¬(k = k') := fun hc => h hc.symm
  simp only [gcSet, findItem]
  rw [if_neg hne]
  exact findItem_filter_ne items k k' h

theorem gcExpiration_fiveHours (defaultExp : Int) (now : Nat) :
    gcExpiration FIVE_HOURS defaultExp now = now + 18000 := by
  simp [gcExpiration, FIVE_HOURS]

theorem gcGet_of_findItem_none {V : Type} {items : List (String × Item V)}
    {k : String} (now : Nat) (h : findItem items k = none) :
    gcGet items k now = none := by
  simp [gcGet, h]

theorem Set_of_absent {V : Type} (c : CacheService V) (k : String) (v : V)
    (d : Int) (now : Nat) (h : findItem c.items k = none) :
    c.Set k v d now =
      (none, { c with items := gcSet c.items k v d c.defaultExpiration now,
                      updatedAt := now }) := by
  simp [CacheService.Set, gcAdd, gcGet_of_findItem_none now h]

theorem Set_snd_marshalFn {V : Type} (c : CacheService V) (k : String) (v : V)
    (d : Int) (now : Nat) :
    (c.Set k v d now).2.marshalFn = c.marshalFn := by
  unfold CacheService.Set
  cases gcAdd c.items k v d c.defaultExpiration now <;> rfl

theorem Set_snd_loadedAt {V : Type} (c : CacheService V) (k : String) (v : V)
    (d : Int) (now : Nat) :
    (c.Set k v d now).2.loadedAt = c.loadedAt := by
  unfold CacheService.Set
  cases gcAdd c.items k v d c.defaultExpiration now <;> rfl

theorem findItem_Set_snd_ne {V : Type} (c : CacheService V) (k k' : String)
    (v : V) (d : Int) (now : Nat) (h : k' ≠ k) :
    findItem (c.Set k v d now).2.items k' = findItem c.items k' := by
  unfold CacheService.Set gcAdd
  cases hget : gcGet c.items k now with
  | some it => rfl
  | none =>
    show findItem (gcSet c.items k v d c.defaultExpiration now) k' =
      findItem c.items k'
    exact findItem_gcSet_ne c.items k k' v d c.defaultExpiration now h

theorem loadEntry_marshalFn {V : Type} (c : CacheService V) (now : Nat)
    (p : String × Item V) :
    (loadEntry c now p).marshalFn = c.marshalFn := by
  unfold loadEntry
  by_cases he : p.2.Expired now
  · simp [he]
  · simp [he]
    cases c.marshalFn p.2.object with
    | none => rfl
    | some obj => exact Set_snd_marshalFn c p.1 obj FIVE_HOURS now

theorem loadEntry_findItem_ne {V : Type} (c : CacheService V) (now : Nat)
    (p : String × Item V) (k : String) (h : k ≠ p.1) :
    findItem (loadEntry c now p).items k = findItem c.items k := by
  unfold loadEntry
  by_cases he : p.2.Expired now
  · simp [he]
  · simp [he]
    cases c.marshalFn p.2.object with
    | none => rfl
    | some obj => exact findItem_Set_snd_ne c p.1 k obj FIVE_HOURS now h

theorem loadItems_cons {V : Type} (c : CacheService V) (p : String × Item V)
    (rest : List (String × Item V)) (now : Nat) :
    loadItems c (p :: rest) now = loadItems (loadEntry c now p) rest now := rfl

theorem loadItems_findItem_not_mem {V : Type} (c : CacheService V)
    (entries : List (String × Item V)) (k : String) (now : Nat)
    (h : k ∉ entries.map Prod.fst) :
    findItem (loadItems c entries now).items k = findItem c.items k := by
  induction entries generalizing c with
  | nil => rfl
  | cons p rest ih =>
    rw [loadItems_cons]
    have hk : k ≠ p.1 := by
      intro hc
      exact h (by simp [hc])
    have hrest : k ∉ rest.map Prod.fst := by
      intro hc
      exact h (by simp [hc])
    rw [ih (loadEntry c now p) hrest, loadEntry_findItem_ne c now p k hk]

theorem loadItems_mem_char {V : Type} (c : CacheService V)
    (entries : List (String × Item V)) (k : String) (it : Item V) (now : Nat)
    (hnd : (entries.map Prod.fst).Nodup) (hmem : (k, it) ∈ entries)
    (hnone : findItem c.items k = none) :
    findItem (loadItems c entries now).items k =
      (if it.Expired now then none
       else (c.marshalFn it.object).map fun w => (⟨w, now + 18000⟩ : Item V)) := by
  induction entries generalizing c with
  | nil => cases hmem
  | cons p rest ih =>
    rw [List.map_cons, List.nodup_cons] at hnd
    rcases List.mem_cons.mp hmem with heq | hrest
    · have hp1 : p.1 = k := by rw [← heq]
      have hknotin : k ∉ rest.map Prod.fst := hp1 ▸ hnd.1
      rw [loadItems_cons,
        loadItems_findItem_not_mem (loadEntry c now p) rest k now hknotin]
      rw [← heq]
      unfold loadEntry
      by_cases he : it.Expired now
      · simp [he, hnone]
      · simp only [he, if_false, Bool.false_eq_true]
        cases hm : c.marshalFn it.object with
        | none => simp [hm, hnone]
        | some w =>
          simp only [hm, Option.map_some]
          rw [Set_of_absent c k w FIVE_HOURS now hnone]
          simp [findItem_gcSet_self, gcExpiration_fiveHours]
    · have hkin : k ∈ rest.map Prod.fst :=
        List.mem_map_of_mem Prod.fst hrest
      have hk : k ≠ p.1 := by
        intro hc
        exact hnd.1 (hc ▸ hkin)
      rw [loadItems_cons]
      have h1 : findItem (loadEntry c now p).items k = none := by
        rw [loadEntry_findItem_ne c now p k hk, hnone]
      have := ih (loadEntry c now p) hnd.2 hrest h1
      rw [this, loadEntry_marshalFn]

theorem load_snd_items {V : Type} (c : CacheService V) (data : FileData V)
    (now : Nat) :
    (load c data now).2.items =
      (match data with
       | .corrupt => c.items
       | .snapshot entries => (loadItems c entries now).items) := by
  cases data <;> rfl

theorem load_snd_Updated {V : Type} (c : CacheService V) (data : FileData V)
    (now : Nat) : (load c data now).2.Updated = false := by
  cases data <;> simp [load, CacheService.setLoadedAt, CacheService.Updated]

theorem newCacheService_valid {V : Type} (cfg : CacheConfig V)
    (f : V → Option V) (hdir : cfg.DataDir ≠ "") (hm : cfg.MarshalFn = some f) :
    newCacheService cfg true = .ok (initialService cfg f) := by
  simp [newCacheService, hdir, hm, initialService]

theorem loadFile_snd_Updated {V : Type} (c : CacheService V)
    (file dl : Option (FileData V)) (now : Nat) (h : c.Updated = false) :
    ((loadFile c file dl now).2).Updated = false := by
  cases file with
  | some data => exact load_snd_Updated c data now
  | none =>
    cases hC : c.hasCloudClient with
    | false => simpa [loadFile, hC] using h
    | true =>
      cases dl with
      | none => simpa [loadFile, hC] using h
      | some data =>
        have : (loadFile c none (some data) now) = load c data now := by
          simp [loadFile, hC]
        rw [this]
        exact load_snd_Updated c data now

/-! ### Claim theorems -/

/-- Claim C1, as stated, is false on the code: on a dirty instance whose
save fails, `Clear()` returns the save error before ever reaching
`cache.Flush()`, so the in-memory entry set is NOT empty afterwards (and the
remote client is not closed). -/
theorem C1_counterexample :
    (clear sysDirty false true true 10).1 = some CacheErr.saveFailed ∧
    (clear sysDirty false true true 10).2.svc.items ≠ [] := by
  constructor
  · rfl
  · decide

/-- Claim C1 (amended): `Clear()` flushes the in-memory store only when the
dirty-triggered save and (when a cloud client is configured) upload steps do
not fail; on a save or upload failure it returns that error with the
in-memory entry set unchanged and the remote client not closed.  When those
steps succeed, or the instance is not dirty, the entry set is empty
afterwards (even when closing the remote client fails, whose error is then
returned). -/
theorem C1_amended {V : Type} (s : Sys V) (saveOk uploadOk closeOk : Bool)
    (now : Nat) :
    (clear s saveOk uploadOk closeOk now).2.svc.items =
      (if s.svc.Updated = true ∧
          (saveOk = false ∨ (s.svc.hasCloudClient = true ∧ uploadOk = false))
       then s.svc.items else []) ∧
    (clear s saveOk uploadOk closeOk now).1 =
      (if s.svc.Updated = true ∧ saveOk = false then some CacheErr.saveFailed
       else if s.svc.Updated = true ∧ s.svc.hasCloudClient = true ∧
           uploadOk = false then some CacheErr.uploadFailed
       else if s.svc.hasCloudClient = true ∧ closeOk = false then
         some CacheErr.closeFailed
       else none) := by
  cases hU : s.svc.Updated <;> cases saveOk <;> cases hC : s.svc.hasCloudClient <;>
    cases uploadOk <;> cases closeOk <;>
      simp [clear, saveFile, clearFlush, hU, hC]

/-- Claim C2: a successful `Clear()` on a dirty instance leaves `loadedAt`
and `updatedAt` untouched, so `Updated()` is still `true`, and a second
`Clear()` on the same instance saves again, overwriting the snapshot file
with the now-empty entry set. -/
theorem C2_clear_keeps_dirty {V : Type} (s : Sys V) (now now' : Nat)
    (h : s.svc.Updated = true) :
    (clear s true true true now).1 = none ∧
    (clear s true true true now).2.svc.loadedAt = s.svc.loadedAt ∧
    (clear s true true true now).2.svc.updatedAt = s.svc.updatedAt ∧
    (clear s true true true now).2.svc.Updated = true ∧
    (clear (clear s true true true now).2 true true true now').1 = none ∧
    (clear (clear s true true true now).2 true true true now').2.file =
      some (FileData.snapshot []) := by
  unfold CacheService.Updated at h
  cases hC : s.svc.hasCloudClient <;>
    simp [clear, saveFile, clearFlush, CacheService.Updated, h, hC, gcItems]

/-- Witness for C2 at a concrete dirty instance. -/
theorem C2_witness :
    (clear sysDirty true true true 10).1 = none ∧
    (clear sysDirty true true true 10).2.svc.loadedAt = sysDirty.svc.loadedAt ∧
    (clear sysDirty true true true 10).2.svc.updatedAt = sysDirty.svc.updatedAt ∧
    (clear sysDirty true true true 10).2.svc.Updated = true ∧
    (clear (clear sysDirty true true true 10).2 true true true 20).1 = none ∧
    (clear (clear sysDirty true true true 10).2 true true true 20).2.file =
      some (FileData.snapshot []) :=
  C2_clear_keeps_dirty sysDirty 10 20 (by decide)

/-- Claim C4: a second `Set` on a key holding a live (unexpired) entry
returns an error and performs no state change: the stored value stays the
first one, `updatedAt` is not advanced, and the dirty status is
unchanged. -/
theorem C4_set_conflict {V : Type} (c : CacheService V) (k : String) (v2 : V)
    (d : Int) (it : Item V) (now : Nat)
    (hfind : findItem c.items k = some it)
    (hlive : it.Expired now = false) :
    c.Set k v2 d now = (some CacheErr.keyExists, c) ∧
    findItem (c.Set k v2 d now).2.items k = some it ∧
    (c.Set k v2 d now).2.updatedAt = c.updatedAt ∧
    (c.Set k v2 d now).2.Updated = c.Updated := by
  have hget : gcGet c.items k now = some it := by
    simp [gcGet, hfind, hlive]
  have h1 : c.Set k v2 d now = (some CacheErr.keyExists, c) := by
    simp [CacheService.Set, gcAdd, hget]
  exact ⟨h1, by rw [h1]; exact hfind, by rw [h1], by rw [h1]⟩

/-- Witness for C4: re-setting the live key of `svcLive` fails and changes
nothing. -/
theorem C4_witness :
    svcLive.Set kA 9 FIVE_MINUTES 10 = (some CacheErr.keyExists, svcLive) ∧
    findItem (svcLive.Set kA 9 FIVE_MINUTES 10).2.items kA = some ⟨7, 50⟩ ∧
    (svcLive.Set kA 9 FIVE_MINUTES 10).2.updatedAt = svcLive.updatedAt ∧
    (svcLive.Set kA 9 FIVE_MINUTES 10).2.Updated = svcLive.Updated :=
  C4_set_conflict svcLive kA 9 FIVE_MINUTES ⟨7, 50⟩ 10 rfl rfl

/-- Claim C3: the snapshot round-trip.  From an empty instance over a valid
config, `Set(k, v, 5m)` at `t1` makes `Updated()` true; `Clear()` at `t2`
(before the entry expires) writes the one-entry snapshot; reconstructing a
fresh instance over the same config and that snapshot at `t3` (still before
the stored expiration, with the conversion of `v` succeeding) yields
`ItemCount() == 1` and `Updated() == false` immediately after the load. -/
theorem C3_roundtrip {V : Type} (cfg : CacheConfig V) (f : V → Option V)
    (k : String) (v w : V) (t0 t1 t2 t3 : Nat)
    (hdir : cfg.DataDir ≠ "") (hm : cfg.MarshalFn = some f)
    (ht1 : 0 < t1) (ht2 : t2 ≤ t1 + 300) (ht3 : t3 ≤ t1 + 300)
    (hconv : f v = some w) :
    ∃ c0 c1 s2 c3,
      NewCacheService cfg true none t0 = .ok c0 ∧
      c0.ItemCount = 0 ∧
      c0.Set k v FIVE_MINUTES t1 = (none, c1) ∧
      c1.Updated = true ∧
      clear ⟨c1, none, false⟩ true true true t2 = (none, s2) ∧
      s2.file = some (.snapshot [(k, ⟨v, t1 + 300⟩)]) ∧
      NewCacheService cfg true s2.file t3 = .ok c3 ∧
      c3.ItemCount = 1 ∧
      c3.Updated = false := by
  have haux0 : ¬(t1 + 300 = 0) := by omega
  have haux2 : ¬(t1 + 300 < t2) := by omega
  have haux3 : ¬(t1 + 300 < t3) := by omega
  have h0 := newCacheService_valid cfg f hdir hm
  refine ⟨initialService cfg f,
    { initialService cfg f with items := [(k, ⟨v, t1 + 300⟩)], updatedAt := t1 },
    { svc := { initialService cfg f with items := [], updatedAt := t1 },
      file := some (.snapshot [(k, ⟨v, t1 + 300⟩)]), remoteFile := false },
    { initialService cfg f with
      items := [(k, ⟨w, t3 + 18000⟩)], loadedAt := t3, updatedAt := t3 },
    ?_, rfl, ?_, ?_, ?_, rfl, ?_, rfl, ?_⟩
  · unfold NewCacheService
    rw [h0]
    rfl
  · rfl
  · simp [CacheService.Updated, initialService, ht1]
  · simp [clear, saveFile, clearFlush, CacheService.Updated, ht1, gcItems,
      Item.Expired, haux0, haux2, initialService]
  · unfold NewCacheService
    rw [h0]
    simp [loadFile, load, loadItems, List.foldl, loadEntry, Item.Expired,
      haux0, haux3, initialService, hconv, CacheService.Set, gcAdd, gcGet,
      findItem, gcSet, gcExpiration_fiveHours, CacheService.setLoadedAt]
  · simp [CacheService.Updated, initialService]

/-- Witness for C3 at a fully concrete round trip. -/
theorem C3_witness :
    ∃ c0 c1 s2 c3,
      NewCacheService cfgOne true none 0 = .ok c0 ∧
      c0.ItemCount = 0 ∧
      c0.Set kA 7 FIVE_MINUTES 10 = (none, c1) ∧
      c1.Updated = true ∧
      clear ⟨c1, none, false⟩ true true true 20 = (none, s2) ∧
      s2.file = some (.snapshot [(kA, ⟨7, 10 + 300⟩)]) ∧
      NewCacheService cfgOne true s2.file 30 = .ok c3 ∧
      c3.ItemCount = 1 ∧
      c3.Updated = false :=
  C3_roundtrip cfgOne some kA 7 7 0 10 20 30 (by decide) rfl (by decide)
    (by decide) (by decide) rfl

/-- Claim C5: for every entry of a decoded snapshot (starting from the empty
instance `load` is invoked on, snapshot keys unique), an entry already
expired at load time is silently dropped and never re-inserted, while an
entry not yet expired (whose conversion succeeds, yielding `w`) is
re-inserted with the fixed re-hydration TTL of 5 hours — expiration
`now + 18000` — regardless of the expiration stored in the snapshot. -/
theorem C5_load_rehydration {V : Type} (c : CacheService V)
    (entries : List (String × Item V)) (k : String) (it : Item V) (now : Nat)
    (hempty : c.items = [])
    (hnd : (entries.map Prod.fst).Nodup)
    (hmem : (k, it) ∈ entries) :
    (it.Expired now = true →
       findItem (load c (.snapshot entries) now).2.items k = none) ∧
    (∀ w, it.Expired now = false → c.marshalFn it.object = some w →
       findItem (load c (.snapshot entries) now).2.items k =
         some ⟨w, now + 18000⟩) := by
  have hnone : findItem c.items k = none := by rw [hempty]; rfl
  have hchar := loadItems_mem_char c entries k it now hnd hmem hnone
  have hitems : (load c (.snapshot entries) now).2.items =
      (loadItems c entries now).items := rfl
  constructor
  · intro he
    rw [hitems, hchar, he]
    simp
  · intro w he hm
    rw [hitems, hchar, he, hm]
    simp

/-- Witness for C5 on the mixed snapshot: the entry expired at `now = 100`
is dropped, the live one is re-inserted with expiration `100 + 18000`. -/
theorem C5_witness :
    findItem (load svcEmpty (.snapshot entriesMixed) 100).2.items kA = none ∧
    findItem (load svcEmpty (.snapshot entriesMixed) 100).2.items kB =
      some ⟨8, 100 + 18000⟩ :=
  ⟨(C5_load_rehydration svcEmpty entriesMixed kA ⟨7, 40⟩ 100 rfl (by decide)
      (by decide)).1 rfl,
   (C5_load_rehydration svcEmpty entriesMixed kB ⟨8, 0⟩ 100 rfl (by decide)
      (by decide)).2 8 rfl rfl⟩

/-- Claim C6: exactly the mutating facade operations mark the instance
dirty — a successful `Set` and every `Delete` move `updatedAt` to `now`
(never `loadedAt`), a failed `Set` changes nothing, and `DeleteExpired`
leaves both timestamps unchanged.  The read operations `Get`, `ItemCount`,
`Items` and `Updated` are embedded as pure functions of the state — they
return no successor state at all, which is the faithful rendering of the
source, where they write no field. -/
theorem C6_dirty_marking {V : Type} (c : CacheService V) (k : String) (v : V)
    (d : Int) (now : Nat) :
    (c.Set k v d now).2.loadedAt = c.loadedAt ∧
    ((c.Set k v d now).1 = none → (c.Set k v d now).2.updatedAt = now) ∧
    ((c.Set k v d now).1 ≠ none → (c.Set k v d now).2 = c) ∧
    (c.Delete k now).updatedAt = now ∧
    (c.Delete k now).loadedAt = c.loadedAt ∧
    (c.DeleteExpired now).updatedAt = c.updatedAt ∧
    (c.DeleteExpired now).loadedAt = c.loadedAt := by
  refine ⟨Set_snd_loadedAt c k v d now, ?_, ?_, rfl, rfl, rfl, rfl⟩
  · unfold CacheService.Set
    cases gcAdd c.items k v d c.defaultExpiration now with
    | error e => intro h; exact absurd h (by simp)
    | ok its => intro _; rfl
  · unfold CacheService.Set
    cases gcAdd c.items k v d c.defaultExpiration now with
    | error e => intro _; rfl
    | ok its => intro h; exact absurd rfl h

/-- Witness for C6: a succeeding `Set` and a `Delete` stamp `updatedAt`, a
conflicting `Set` changes nothing, `DeleteExpired` keeps the timestamps. -/
theorem C6_witness :
    (svcEmpty.Set kA 7 FIVE_MINUTES 10).2.updatedAt = 10 ∧
    (svcEmpty.Delete kA 11).updatedAt = 11 ∧
    (svcEmpty.Delete kA 11).loadedAt = svcEmpty.loadedAt ∧
    (svcEmpty.DeleteExpired 12).updatedAt = svcEmpty.updatedAt ∧
    (svcEmpty.DeleteExpired 12).loadedAt = svcEmpty.loadedAt ∧
    (svcLive.Set kA 9 FIVE_MINUTES 10).2 = svcLive := by
  have h1 := C6_dirty_marking svcEmpty kA 7 FIVE_MINUTES 10
  have h2 := C6_dirty_marking svcLive kA 9 FIVE_MINUTES 10
  have h3 := C6_dirty_marking svcEmpty kA 7 FIVE_MINUTES 11
  have h4 := C6_dirty_marking svcEmpty kA 7 FIVE_MINUTES 12
  exact ⟨h1.2.1 rfl, h3.2.2.2.1, h3.2.2.2.2.1, h4.2.2.2.2.2.1,
    h4.2.2.2.2.2.2, h2.2.2.1 (by decide)⟩

/-- Claim C7: during `load`, a per-entry conversion failure only skips that
entry — the rest of the snapshot is still processed and the `load` call does
not return the conversion error — whereas a JSON-decode failure of the whole
file makes `load` return an error with no entry re-inserted. -/
theorem C7_load_error_granularity {V : Type} (c : CacheService V)
    (entries : List (String × Item V)) (k : String) (it : Item V) (now : Nat)
    (hempty : c.items = [])
    (hnd : (entries.map Prod.fst).Nodup)
    (hmem : (k, it) ∈ entries)
    (hfail : c.marshalFn it.object = none) :
    (load c FileData.corrupt now).1 = some CacheErr.decodeFailed ∧
    (load c FileData.corrupt now).2.items = c.items ∧
    (load c (.snapshot entries) now).1 = none ∧
    findItem (load c (.snapshot entries) now).2.items k = none ∧
    (∀ k' it' w, (k', it') ∈ entries → k' ≠ k → it'.Expired now = false →
       c.marshalFn it'.object = some w →
       findItem (load c (.snapshot entries) now).2.items k' =
         some ⟨w, now + 18000⟩) := by
  have hnone : findItem c.items k = none := by rw [hempty]; rfl
  refine ⟨rfl, rfl, rfl, ?_, ?_⟩
  · have hchar := loadItems_mem_char c entries k it now hnd hmem hnone
    have hitems : (load c (.snapshot entries) now).2.items =
        (loadItems c entries now).items := rfl
    rw [hitems, hchar, hfail]
    cases it.Expired now <;> simp
  · intro k' it' w hmem' hne he hm
    have hnone' : findItem c.items k' = none := by rw [hempty]; rfl
    have hchar := loadItems_mem_char c entries k' it' now hnd hmem' hnone'
    have hitems : (load c (.snapshot entries) now).2.items =
        (loadItems c entries now).items := rfl
    rw [hitems, hchar, he, hm]
    simp

/-- Witness for C7: loading `entriesConv` under `failOdd` skips only the
first entry (payload 7, conversion fails) and still loads the second; a
corrupt file yields the decode error. -/
theorem C7_witness :
    (load svcConv FileData.corrupt 100).1 = some CacheErr.decodeFailed ∧
    (load svcConv (.snapshot entriesConv) 100).1 = none ∧
    findItem (load svcConv (.snapshot entriesConv) 100).2.items kA = none ∧
    findItem (load svcConv (.snapshot entriesConv) 100).2.items kB =
      some ⟨8, 100 + 18000⟩ := by
  have h := C7_load_error_granularity svcConv entriesConv kA ⟨7, 0⟩ 100 rfl
    (by decide) (by decide) rfl
  exact ⟨h.1, h.2.2.1, h.2.2.2.1, h.2.2.2.2 kB ⟨8, 0⟩ 8 (by decide) (by decide)
    rfl rfl⟩

/-- Claim C8: `ClearFile()` fails without deleting anything when the
snapshot file is absent; when it exists, the remote delete (if a cloud
client is configured) is attempted before the local removal, the local file
is removed even when the remote delete failed, and the remote-delete error,
if any, is what is returned once the local removal succeeds. -/
theorem C8_clearFile {V : Type} (s : Sys V) (cloudDeleteOk removeOk : Bool) :
    (s.file = none →
       ClearFile s cloudDeleteOk removeOk = (some CacheErr.statFailed, s)) ∧
    (s.file ≠ none → removeOk = true →
       (ClearFile s cloudDeleteOk removeOk).2.file = none ∧
       (ClearFile s cloudDeleteOk removeOk).1 =
         (if s.svc.hasCloudClient = true ∧ cloudDeleteOk = false then
            some CacheErr.cloudDeleteFailed
          else none) ∧
       (s.svc.hasCloudClient = true → cloudDeleteOk = true →
          (ClearFile s cloudDeleteOk removeOk).2.remoteFile = false)) := by
  constructor
  · intro hf
    simp [ClearFile, hf]
  · intro hf hr
    subst hr
    cases hfile : s.file with
    | none => exact absurd hfile hf
    | some data =>
      cases hC : s.svc.hasCloudClient <;> cases cloudDeleteOk <;>
        simp [ClearFile, hfile, hC]

/-- Witness for C8: absent file fails, and on the cloud-backed system with
an existing file the local file goes away with the remote error surfaced
(or the remote copy gone when the remote delete succeeds). -/
theorem C8_witness :
    ClearFile sysDirty true true = (some CacheErr.statFailed, sysDirty) ∧
    (ClearFile sysCloudFile false true).2.file = none ∧
    (ClearFile sysCloudFile false true).1 = some CacheErr.cloudDeleteFailed ∧
    (ClearFile sysCloudFile true true).2.remoteFile = false := by
  have h1 := (C8_clearFile sysCloudFile false true).2
    (fun hc => Option.noConfusion hc) rfl
  have h2 := (C8_clearFile sysCloudFile true true).2
    (fun hc => Option.noConfusion hc) rfl
  refine ⟨(C8_clearFile sysDirty true true).1 rfl, h1.1, ?_, h2.2.2 rfl rfl⟩
  have := h1.2.1
  simpa [sysCloudFile, svcDirty] using this

/-- Claim C9: for every construction outcome — snapshot loaded, decode
failure, remote download failure, or no snapshot file at all — the
constructors return a usable instance without surfacing the load failure,
and `Updated()` is `false` immediately after construction; with no remote
backend and no snapshot file the instance is empty. -/
theorem C9_construction_total {V : Type} (cfg : CacheConfig V)
    (f : V → Option V) (stCfg : CacheStorageConfig)
    (file dl : Option (FileData V)) (now : Nat)
    (hdir : cfg.DataDir ≠ "") (hm : cfg.MarshalFn = some f) :
    (∃ c, NewCacheService cfg true file now = .ok c ∧ c.Updated = false ∧
       (file = none → c.ItemCount = 0)) ∧
    (stCfg.hasCloudClient = true → stCfg.Bucket ≠ "" →
       ∃ c, NewWithCloudBackup cfg stCfg true file dl now = .ok c ∧
         c.Updated = false) := by
  have h0 := newCacheService_valid cfg f hdir hm
  constructor
  · refine ⟨(loadFile (initialService cfg f) file none now).2, ?_, ?_, ?_⟩
    · unfold NewCacheService
      rw [h0]
    · exact loadFile_snd_Updated _ file none now rfl
    · intro hfile
      subst hfile
      rfl
  · intro hcc hbucket
    refine ⟨(loadFile { initialService cfg f with hasCloudClient := true }
        file dl now).2, ?_, ?_⟩
    · unfold NewWithCloudBackup
      rw [h0]
      simp [hdir, hm, hcc, hbucket]
    · exact loadFile_snd_Updated _ file dl now rfl

/-- Witness for C9 with no remote backend and no snapshot file, and with a
cloud-backed construction whose download fails. -/
theorem C9_witness :
    (∃ c, NewCacheService cfgOne true (none : Option (FileData Nat)) 0 = .ok c ∧
       c.Updated = false ∧
       ((none : Option (FileData Nat)) = none → c.ItemCount = 0)) ∧
    ((stCfgOne.hasCloudClient = true → stCfgOne.Bucket ≠ "" →
       ∃ c, NewWithCloudBackup cfgOne stCfgOne true
         (none : Option (FileData Nat)) none 0 = .ok c ∧ c.Updated = false)) :=
  C9_construction_total cfgOne some stCfgOne none none 0 (by decide) rfl

/-- Claim C10: in `ClearFile()`, when the remote delete fails and the local
removal also fails, the returned error is the local-removal error — the
remote-delete error is discarded — and nothing is deleted. -/
theorem C10_remove_error_wins {V : Type} (s : Sys V)
    (hf : s.file ≠ none) (hC : s.svc.hasCloudClient = true) :
    (ClearFile s false false).1 = some CacheErr.removeFailed ∧
    (ClearFile s false false).2 = s := by
  cases hfile : s.file with
  | none => exact absurd hfile hf
  | some data => simp [ClearFile, hfile, hC]

/-- Witness for C10 on the cloud-backed system with an existing file. -/
theorem C10_witness :
    (ClearFile sysCloudFile false false).1 = some CacheErr.removeFailed ∧
    (ClearFile sysCloudFile false false).2 = sysCloudFile :=
  C10_remove_error_wins sysCloudFile (fun hc => Option.noConfusion hc) rfl

end ComffortsCache
